import Mathlib

/-!
Verification development for the BB-code parsing core of
bbcodeparser_py3kplus.py.

Modelling conventions:
* Python strings are lists of characters (abbreviation Str below).
* Python runtime faults are explicit: TypeError, NameError, AttributeError,
  KeyError and IndexError become constructors of PyErr, and every operation
  that can fault returns an Except PyErr value.  The source file is a
  mechanical port that kept several statements from the original language,
  so some statements fault whenever they are executed; those are modelled
  exactly where the faulting expression is evaluated.
* The mutable token queue is threaded explicitly; each in-place field update
  of a token becomes a List.set with a record update.
* The settings dictionary is only ever forwarded opaquely to the handler
  callbacks, so handlers are modelled with the settings already applied:
  is_valid_argument, is_valid_parent, escape, open and close lose their
  settings parameter.  The open/close callbacks are named open_fn/close_fn
  because open is a Lean keyword.
-/

set_option maxHeartbeats 1000000

abbrev Str := List Char

/-- Python runtime faults that the source can raise, plus a fuel marker
(noFuel) standing for a loop in the source that cannot terminate. -/
inductive PyErr where
  | typeErr
  | nameErr
  | attrErr
  | keyErr
  | indexErr
  | noFuel
  deriving DecidableEq, Repr

/-- Python str.find(sub, start) scanning upward from a given index:
auxiliary loop with explicit fuel (the fuel is always sufficient). -/
def findFromAux (s pat : List Char) : Nat → Nat → Option Nat
  | _, 0 => none
  | i, fuel + 1 =>
    if pat.isPrefixOf (s.drop i) then some i else findFromAux s pat (i + 1) fuel

/-- Python str.find(sub, start): least index at or after start where pat
occurs, none standing for the -1 result. -/
def findFrom (s pat : List Char) (start : Nat) : Option Nat :=
  if s.length < start then none else findFromAux s pat start (s.length + 1 - start)

/-- Whether pat occurs anywhere in s; this is how the source uses rfind at
line 380 (presence test against -1 only). -/
def containsSub (s pat : List Char) : Bool :=
  (findFrom s pat 0).isSome

/-- Python str.rfind(sub): greatest index where pat occurs (line 404 splits
a code on the last equals sign).  Scans downward from a given index. -/
def rfindAux (s pat : List Char) : Nat → Option Nat
  | 0 => if pat.isPrefixOf s then some 0 else none
  | i + 1 => if pat.isPrefixOf (s.drop (i + 1)) then some (i + 1) else rfindAux s pat i

/-- Python str.rfind(sub) over the whole string. -/
def rfindSub (s pat : List Char) : Option Nat :=
  rfindAux s pat s.length

/-- Token kinds, from class Token (lines 704-707); the unused NONE constant
is omitted. -/
inductive TType where
  | CODE_START
  | CODE_END
  | CONTENT
  deriving DecidableEq, Repr

/-- Token statuses, from class Token (lines 709-713). -/
inductive Status where
  | VALID
  | INVALID
  | NOTALLOWED
  | NOIMPLFOUND
  | UNDETERMINED
  deriving DecidableEq, Repr

/-- A BB-code-oriented token (class Token, lines 701-720). -/
structure Token where
  ttype : TType
  content : Str
  argument : Option Str
  status : Status
  matched_index : Option Nat
  deriving DecidableEq, Repr

/-- Token constructor (lines 715-720): content tokens are born VALID, all
others UNDETERMINED; matched_index starts unset. -/
def Token.make (ttype : TType) (content : Str) (argument : Option Str) : Token :=
  { ttype := ttype
    content := content
    argument := argument
    status := if ttype = TType.CONTENT then Status.VALID else Status.UNDETERMINED
    matched_index := none }

/-- The BBCode handler capability interface (lines 91-174), with the
settings dictionary already applied to the callbacks. -/
structure BBCode where
  needs_end : Bool
  can_have_code_content : Bool
  can_have_argument : Bool
  must_have_argument : Bool
  get_auto_close_code_on_open : Option Str
  get_auto_close_code_on_close : Option Str
  is_valid_argument : Option Str → Bool
  is_valid_parent : Option Str → Bool
  escape : Str → Str
  open_fn : Option Str → Option Str → Str
  close_fn : Option Str → Option Str → Str

/-- The registry: a mapping from display names to handlers (the bb_codes
dictionary). -/
abbrev Codes := Str → Option BBCode

/-- The reserved root handler name. -/
def globalName : Str := "GLOBAL".toList

/-- Python dictionary subscription codes[k]: raises KeyError when the key is
absent (this happens at source lines 415 and 427, where the subscription is
evaluated before the is_valid_key guard). -/
def dictGet (codes : Codes) (k : Str) : Except PyErr BBCode :=
  match codes k with
  | some v => Except.ok v
  | none => Except.error PyErr.keyErr

/-- BBCodeParser.is_valid_key for the registry (line 644-647): key present
(registry values are never None in the model). -/
def is_valid_key (codes : Codes) (k : Str) : Bool :=
  (codes k).isSome

/-- Python list subscription queue[n]: raises IndexError out of range. -/
def pyIndex (q : List Token) (n : Nat) : Except PyErr Token :=
  match q.get? n with
  | some t => Except.ok t
  | none => Except.error PyErr.indexErr

/-- Python truthiness of an optional string (None and the empty string are
falsy). -/
def pyTruthyStr (o : Option Str) : Bool :=
  match o with
  | none => false
  | some [] => false
  | some (_ :: _) => true

/-- Python truthiness of the matched_index field (None and the index 0 are falsy;
line 545 tests `if token.matched_index:`). -/
def matchesTruthy (o : Option Nat) : Bool :=
  match o with
  | none => false
  | some n => decide (n ≠ 0)

/-- The MultiTokenizer state (lines 650-698). -/
structure MultiTokenizer where
  input : Str
  length : Nat
  position : Nat

/-- MultiTokenizer constructor (lines 659-662). -/
def MultiTokenizer.make (tinput : Str) (position : Nat) : MultiTokenizer :=
  { input := tinput, length := tinput.length, position := position }

/-- has_next_token (lines 670-675): whether the delimiter occurs at or after
min(length, position). -/
def MultiTokenizer.has_next_token (tk : MultiTokenizer) (delimiter : Str) : Bool :=
  (findFrom tk.input delimiter (min tk.length tk.position)).isSome

/-- next_token (lines 677-694): returns none when the cursor is at or past
the end; otherwise the text up to the next delimiter occurrence (or the end
when there is none), advancing the cursor past it. -/
def MultiTokenizer.next_token (tk : MultiTokenizer) (delimiter : Str) :
    Option Str × MultiTokenizer :=
  if tk.length ≤ tk.position then (none, tk)
  else
    let index := (findFrom tk.input delimiter tk.position).getD tk.length
    (some ((tk.input.drop tk.position).take (index - tk.position)),
      { tk with position := index + 1 })

/-- is_exhausted is defined without a self parameter (line 664), so invoking
it as a bound method raises TypeError before its body can run. -/
def MultiTokenizer.is_exhausted (_tk : MultiTokenizer) : Except PyErr Bool :=
  Except.error PyErr.typeErr

/-- position_to_end_token is likewise defined without a self parameter
(line 667), so invoking it as a bound method raises TypeError. -/
def MultiTokenizer.position_to_end_token (_tk : MultiTokenizer) : Except PyErr Str :=
  Except.error PyErr.typeErr

/-- Generic backward scan used by the _find_* helpers: greatest index below
the given position whose token satisfies P, none standing for -1. -/
def findBack (P : Token → Bool) (q : List Token) : Nat → Option Nat
  | 0 => none
  | i + 1 =>
    match q.get? i with
    | some u => if P u then some i else findBack P q i
    | none => findBack P q i

/-- The scan predicate of _find_start_code_with_status (lines 599-606). -/
def startWithStatusP (status : Status) : Token → Bool := fun u =>
  decide (u.ttype = TType.CODE_START ∧ u.status = status)

/-- _find_start_code_with_status (lines 599-606): closest preceding start
code with the given status. -/
def find_start_code_with_status (q : List Token) (status : Status) (position : Nat) :
    Option Nat :=
  findBack (startWithStatusP status) q position

/-- The scan predicate of _find_start_code_of_type (lines 608-616). -/
def startOfTypeP (content : Str) : Token → Bool := fun u =>
  decide (u.ttype = TType.CODE_START ∧ u.status = Status.UNDETERMINED ∧ u.content = content)

/-- _find_start_code_of_type (lines 608-616): closest preceding undetermined
start code with the given content. -/
def find_start_code_of_type (q : List Token) (content : Str) (position : Nat) :
    Option Nat :=
  findBack (startOfTypeP content) q position

/-- Auxiliary loop of _find_parent_start_code (lines 618-626).  When the
scan reaches a VALID start code whose matched_index field is still None, the
comparison None > position raises TypeError in Python 3. -/
def find_parent_aux (q : List Token) (position : Nat) : Nat → Except PyErr (Option Nat)
  | 0 => Except.ok none
  | i + 1 =>
    match q.get? i with
    | some u =>
      if u.ttype = TType.CODE_START ∧ u.status = Status.VALID then
        match u.matched_index with
        | none => Except.error PyErr.typeErr
        | some m =>
          if position < m then Except.ok (some i) else find_parent_aux q position i
      else find_parent_aux q position i
    | none => find_parent_aux q position i

/-- _find_parent_start_code (lines 618-626): closest preceding VALID start
code whose match index lies beyond the given position. -/
def find_parent_start_code (q : List Token) (position : Nat) : Except PyErr (Option Nat) :=
  find_parent_aux q position position

/-- The backward scan the pairing pass uses for a close token (lines
480-483): by type when overlapping codes are handled, by UNDETERMINED status
otherwise. -/
def scanFor (handle_overlapping_codes : Bool) (q : List Token) (name : Str) (i : Nat) :
    Option Nat :=
  if handle_overlapping_codes then find_start_code_of_type q name i
  else find_start_code_with_status q Status.UNDETERMINED i

/-- The predicate scanFor scans for. -/
def scanPred (handle_overlapping_codes : Bool) (name : Str) : Token → Bool := fun u =>
  if handle_overlapping_codes then startOfTypeP name u
  else startWithStatusP Status.UNDETERMINED u

/-- One iteration of the pairing pass (lines 457-492), processing the token
at index i of the queue. -/
def validateStep (codes : Codes) (handle_overlapping_codes : Bool) (q : List Token)
    (i : Nat) : Except PyErr (List Token) :=
  match q.get? i with
  | none => Except.ok q
  | some t =>
    if t.status = Status.NOIMPLFOUND ∨ t.status = Status.NOTALLOWED then Except.ok q
    else
      match t.ttype with
      | TType.CONTENT => Except.ok q
      | TType.CODE_START =>
        match codes t.content with
        | none => Except.error PyErr.keyErr
        | some h =>
          if h.needs_end = false then
            Except.ok (q.set i { t with status := Status.VALID })
          else Except.ok q
      | TType.CODE_END =>
        match codes (t.content.drop 1) with
        | none => Except.error PyErr.keyErr
        | some h =>
          if h.needs_end = false then
            Except.ok (q.set i { t with ttype := TType.CONTENT, status := Status.VALID })
          else
            match scanFor handle_overlapping_codes q (t.content.drop 1) i with
            | none => Except.ok (q.set i { t with status := Status.INVALID })
            | some s =>
              match q.get? s with
              | none => Except.error PyErr.indexErr
              | some ts =>
                if ts.content = t.content.drop 1 then
                  Except.ok ((q.set i { t with status := Status.VALID, matched_index := some s }).set s
                    { ts with status := Status.VALID, matched_index := some i })
                else Except.ok (q.set i { t with status := Status.INVALID })

/-- The pairing pass loop (lines 455-496): after each token the
all-or-nothing abort (lines 494-496) checks the processed token; an abort is
reported as ok none and makes _replace return the original input. -/
def validateFrom (codes : Codes) (all_or_nothing handle_overlapping_codes : Bool) :
    Nat → Nat → List Token → Except PyErr (Option (List Token))
  | 0, _, q => Except.ok (some q)
  | r + 1, i, q =>
    match validateStep codes handle_overlapping_codes q i with
    | Except.error e => Except.error e
    | Except.ok q1 =>
      match q1.get? i with
      | some t1 =>
        if all_or_nothing ∧ t1.status = Status.INVALID then Except.ok none
        else validateFrom codes all_or_nothing handle_overlapping_codes r (i + 1) q1
      | none => validateFrom codes all_or_nothing handle_overlapping_codes r (i + 1) q1

/-- The full pairing/validation pass over the queue (lines 454-496). -/
def validatePass (codes : Codes) (all_or_nothing handle_overlapping_codes : Bool)
    (q : List Token) : Except PyErr (Option (List Token)) :=
  validateFrom codes all_or_nothing handle_overlapping_codes q.length 0 q

/-- _array_remove with first=True (lines 628-641).  The source while loop
never increments its index, so it terminates only when the match is the
first element; otherwise it loops forever, which the model reports as
noFuel. -/
def arrayRemoveFirst (stack : List Str) (m : Str) : Except PyErr (List Str) :=
  match stack with
  | [] => Except.ok []
  | x :: xs => if x = m then Except.ok xs else Except.error PyErr.noFuel

/-- queue[len(queue)-1].status = st (lines 441 and 444). -/
def setLastStatus (q : List Token) (st : Status) : List Token :=
  match q.get? (q.length - 1) with
  | some t => q.set (q.length - 1) { t with status := st }
  | none => q

/-- Lines 440-444: mark the token just appended NOIMPLFOUND when its name has
no handler, else NOTALLOWED when the name is not in the allowed list. -/
def markLast (codes : Codes) (allowed : List Str) (name : Str) (q : List Token) :
    List Token :=
  if is_valid_key codes name = false then setLastStatus q Status.NOIMPLFOUND
  else if name ∈ allowed then q
  else setLastStatus q Status.NOTALLOWED

/-- The tokenize-and-build loop of _replace (lines 384-452).  The loop body
evaluates tokenizer.is_exhausted() at line 399, which always raises
TypeError (the method lacks self); were it to return, a True result would
reach code referring to the undefined names input/codeEndSymbol and the
non-Python statement new Token(...) at line 400, modelled as NameError.
After the loop, line 450 calls position_to_end_token(), which raises
TypeError the same way. -/
def build_loop (allowed : List Str) (codes : Codes) (css ces : Str) :
    Nat → MultiTokenizer → List Token → List Str → Except PyErr (List Token)
  | 0, _, _, _ => Except.error PyErr.noFuel
  | fuel + 1, tk, queue, stack =>
    if tk.has_next_token css then
      let r1 := tk.next_token css
      -- has_next_token guarantees an unconsumed start symbol, so the before
      -- token is a string here
      let before := r1.fst.getD []
      let tk1 := r1.snd
      let r2 := tk1.next_token ces
      let codeOpt := r2.fst
      let tk2 := r2.snd
      -- line 392: code != '' (Python None != '' is also true)
      if codeOpt ≠ some ([] : Str) then
        -- lines 395-396
        let queue1 :=
          if before ≠ [] then queue ++ [Token.make TType.CONTENT before none] else queue
        -- line 399, first conjunct: always raises
        match tk2.is_exhausted with
        | Except.error e => Except.error e
        | Except.ok ex =>
          if ex then
            -- rest of line 399 and line 400: undefined names and non-Python
            -- syntax; unreachable because is_exhausted always raises first
            Except.error PyErr.nameErr
          else
            match codeOpt with
            | none => Except.error PyErr.attrErr -- line 404: None.rfind
            | some code =>
              -- lines 403-410: split on the last equals sign
              let pair :=
                match rfindSub code ['='] with
                | some e => (code.take e, some (code.drop (e + 1)))
                | none => (code, none)
              let code_display_name := pair.fst
              let code_argument := pair.snd
              -- line 413: code[0:1] == '/'
              if code.take 1 = ['/'] then
                let code_no_slash := code_display_name.drop 1
                -- line 415: subscription before the is_valid_key guard
                match dictGet codes code_no_slash with
                | Except.error e => Except.error e
                | Except.ok h =>
                  let acc := h.get_auto_close_code_on_close
                  let autoRes : Except PyErr (List Token × List Str) :=
                    match acc with
                    | some a =>
                      if is_valid_key codes code_no_slash = true ∧ a ≠ [] ∧
                          is_valid_key codes a = true ∧ a ∈ stack then
                        match arrayRemoveFirst stack a with
                        | Except.error e => Except.error e
                        | Except.ok stack1 =>
                          Except.ok
                            (queue1 ++ [Token.make TType.CODE_END ('/' :: a) none], stack1)
                      else Except.ok (queue1, stack)
                    | none => Except.ok (queue1, stack)
                  match autoRes with
                  | Except.error e => Except.error e
                  | Except.ok (queue2, stack2) =>
                    -- line 424: the close token keeps the leading slash
                    let queue3 := queue2 ++ [Token.make TType.CODE_END code_display_name none]
                    let queue4 := markLast codes allowed code_no_slash queue3
                    build_loop allowed codes css ces fuel tk2 queue4 stack2
              else
                -- line 427: subscription before the is_valid_key guard
                match dictGet codes code_display_name with
                | Except.error e => Except.error e
                | Except.ok h =>
                  let acc := h.get_auto_close_code_on_open
                  let autoRes : Except PyErr (List Token × List Str) :=
                    match acc with
                    | some a =>
                      if is_valid_key codes code_display_name = true ∧ a ≠ [] ∧
                          is_valid_key codes a = true ∧ a ∈ stack then
                        match arrayRemoveFirst stack a with
                        | Except.error e => Except.error e
                        | Except.ok stack1 =>
                          Except.ok
                            (queue1 ++ [Token.make TType.CODE_END ('/' :: a) none], stack1)
                      else Except.ok (queue1, stack)
                    | none => Except.ok (queue1, stack)
                  match autoRes with
                  | Except.error e => Except.error e
                  | Except.ok (queue2, stack2) =>
                    -- lines 436-437
                    let queue3 :=
                      queue2 ++ [Token.make TType.CODE_START code_display_name code_argument]
                    let stack3 := stack2 ++ [code_display_name]
                    let queue4 := markLast codes allowed code_display_name queue3
                    build_loop allowed codes css ces fuel tk2 queue4 stack3
      else
        -- lines 446-447: empty brackets become literal content
        build_loop allowed codes css ces fuel tk2
          (queue ++ [Token.make TType.CONTENT (before ++ ['[', ']']) none]) stack
    else
      -- lines 449-452: trailing text after the last end symbol
      match tk.position_to_end_token with
      | Except.error e => Except.error e
      | Except.ok lastBits =>
        Except.ok
          (if lastBits ≠ [] then queue ++ [Token.make TType.CONTENT lastBits none] else queue)

/-- The queue builder of _replace: tokenizer construction at line 385 and
the loop at lines 386-452. -/
def buildQueue (allowed : List Str) (codes : Codes) (css ces : Str) (finput : Str) :
    Except PyErr (List Token) :=
  build_loop allowed codes css ces (finput.length + 2) (MultiTokenizer.make finput 0) [] []

/-- The outcome of rendering one token: either the all-or-nothing abort
(return finput) or a chunk of output together with the updated queue and
render stack. -/
inductive StepOut where
  | abort
  | emit (chunk : Str) (q : List Token) (stack : List Token)
  deriving Repr

/-- Line 540: the parent context name, GLOBAL when there is no parent start
code. -/
def parent_name_of (q : List Token) (parentIdx : Option Nat) : Except PyErr (Option Str) :=
  match parentIdx with
  | none => Except.ok (some globalName)
  | some p =>
    match pyIndex q p with
    | Except.error e => Except.error e
    | Except.ok tp => Except.ok (some tp.content)

/-- Lines 552-561: emit a VALID start code through its handler; a start code
with any other status reaches the mangled literal-output statements at lines
559/561 (attribute access on a str), which raise AttributeError. -/
def render_open_emit (codes : Codes) (handle_overlapping_codes : Bool) (q : List Token)
    (t : Token) (stack : List Token) : Except PyErr StepOut :=
  if t.status = Status.VALID then
    match codes t.content with
    | none => Except.error PyErr.keyErr
    | some h =>
      Except.ok (StepOut.emit (h.open_fn t.argument none) q
        (if handle_overlapping_codes then stack ++ [t] else stack))
  else if t.argument.isSome then Except.error PyErr.attrErr -- line 559
  else Except.error PyErr.attrErr -- line 561

/-- Lines 543-561: the parent-validity check for a start code and the final
emission.  When the parent is invalid, lines 545-547 mark both tokens of the
pair INVALID and then line 549 reads the undefined name allOrNothing,
raising NameError (so the updates are discarded by the raise). -/
def render_open_tail (codes : Codes) (handle_overlapping_codes : Bool) (q : List Token)
    (t : Token) (stack : List Token) (parentName : Option Str) : Except PyErr StepOut :=
  if t.status = Status.VALID then
    match codes t.content with
    | none => Except.error PyErr.keyErr
    | some h =>
      if h.is_valid_parent parentName = false then
        if matchesTruthy t.matched_index then
          match pyIndex q (t.matched_index.getD 0) with -- line 546
          | Except.error e => Except.error e
          | Except.ok _ => Except.error PyErr.nameErr -- line 549
        else Except.error PyErr.nameErr -- line 549
      else render_open_emit codes handle_overlapping_codes q t stack
  else render_open_emit codes handle_overlapping_codes q t stack

/-- The disjunction at lines 525-529, with Python left-to-right short-circuit
evaluation (each lookup of codes[token.content] can raise KeyError). -/
def big_condition (codes : Codes) (q : List Token) (t : Token) (parentIdx : Option Nat) :
    Except PyErr Bool :=
  match
    (if t.status = Status.UNDETERMINED then
      match codes t.content with
      | none => Except.error PyErr.keyErr
      | some h => Except.ok h.needs_end
    else Except.ok false : Except PyErr Bool) with
  | Except.error e => Except.error e
  | Except.ok d1 =>
    if d1 then Except.ok true
    else
      match codes t.content with
      | none => Except.error PyErr.keyErr
      | some h =>
        if h.can_have_argument && !(h.is_valid_argument t.argument) then Except.ok true
        else if !h.can_have_argument && pyTruthyStr t.argument then Except.ok true
        else if h.must_have_argument && !(pyTruthyStr t.argument) then Except.ok true
        else
          match parentIdx with
          | none => Except.ok false
          | some p =>
            match pyIndex q p with
            | Except.error e => Except.error e
            | Except.ok tp =>
              match codes tp.content with
              | none => Except.error PyErr.keyErr
              | some hp => Except.ok (!hp.can_have_code_content)

/-- Rendering of one token (lines 502-593). -/
def renderToken (codes : Codes) (all_or_nothing handle_overlapping_codes
    escape_content_output : Bool) (q : List Token) (i : Nat) (t : Token)
    (stack : List Token) : Except PyErr StepOut :=
  match t.ttype with
  | TType.CONTENT =>
    -- lines 505-515: escape via the closest preceding VALID start code
    if escape_content_output = false then Except.ok (StepOut.emit t.content q stack)
    else
      match find_start_code_with_status q Status.VALID i with
      | none =>
        match codes globalName with
        | none => Except.error PyErr.keyErr
        | some g => Except.ok (StepOut.emit (g.escape t.content) q stack)
      | some p =>
        match pyIndex q p with
        | Except.error e => Except.error e
        | Except.ok tp =>
          match codes tp.content with
          | none =>
            match codes globalName with
            | none => Except.error PyErr.keyErr
            | some g => Except.ok (StepOut.emit (g.escape t.content) q stack)
          | some h => Except.ok (StepOut.emit (h.escape t.content) q stack)
  | TType.CODE_START =>
    -- lines 518-561
    if t.status = Status.NOIMPLFOUND ∨ t.status = Status.NOTALLOWED then
      -- the parent variable stays None for these tokens
      render_open_tail codes handle_overlapping_codes q t stack none
    else
      match find_parent_start_code q i with
      | Except.error e => Except.error e
      | Except.ok parentIdx =>
        match big_condition codes q t parentIdx with
        | Except.error e => Except.error e
        | Except.ok cond =>
          if cond then
            -- lines 531-538
            match t.matched_index with
            | none => Except.error PyErr.typeErr -- line 534: queue[None]
            | some m =>
              let t1 := { t with status := Status.INVALID }
              let q1 := q.set i t1
              match pyIndex q1 m with
              | Except.error e => Except.error e
              | Except.ok tm =>
                let q2 := q1.set m { tm with status := Status.INVALID }
                if all_or_nothing then Except.ok StepOut.abort -- line 538
                else
                  match parent_name_of q2 parentIdx with
                  | Except.error e => Except.error e
                  | Except.ok parentName =>
                    render_open_tail codes handle_overlapping_codes q2 t1 stack parentName
          else
            match parent_name_of q parentIdx with
            | Except.error e => Except.error e
            | Except.ok parentName =>
              render_open_tail codes handle_overlapping_codes q t stack parentName
  | TType.CODE_END =>
    -- lines 564-593
    if t.status = Status.VALID then
      if handle_overlapping_codes then
        -- line 571: scount = count(stack) calls the integer local count,
        -- raising TypeError; the close/reopen choreography at lines 573-591
        -- is unreachable behind this raise
        Except.error PyErr.typeErr
      else
        -- line 583: close the code with the close token's own argument
        match codes (t.content.drop 1) with
        | none => Except.error PyErr.keyErr
        | some h => Except.ok (StepOut.emit (h.close_fn t.argument none) q stack)
    else Except.error PyErr.attrErr -- line 593: attribute access on a str

/-- The render loop (lines 498-593), threading queue, render stack and
accumulated output; an abort returns the original input. -/
def render_loop (codes : Codes) (all_or_nothing handle_overlapping_codes
    escape_content_output : Bool) (finput : Str) :
    Nat → Nat → List Token → List Token → Str → Except PyErr Str
  | 0, _, _, _, acc => Except.ok acc
  | r + 1, i, q, stack, acc =>
    match q.get? i with
    | none => Except.ok acc
    | some t =>
      match renderToken codes all_or_nothing handle_overlapping_codes
          escape_content_output q i t stack with
      | Except.error e => Except.error e
      | Except.ok StepOut.abort => Except.ok finput
      | Except.ok (StepOut.emit chunk q1 stack1) =>
        render_loop codes all_or_nothing handle_overlapping_codes escape_content_output
          finput r (i + 1) q1 stack1 (acc ++ chunk)

/-- The full render pass over a validated queue (lines 498-593). -/
def renderPass (codes : Codes) (all_or_nothing handle_overlapping_codes
    escape_content_output : Bool) (finput : Str) (q : List Token) : Except PyErr Str :=
  render_loop codes all_or_nothing handle_overlapping_codes escape_content_output finput
    q.length 0 q [] []

/-- _replace (lines 375-597): when both delimiters occur, build the queue,
run the pairing pass (aborting to the original input under all-or-nothing)
and render; otherwise dump the input back, escaped by the GLOBAL handler
when content escaping is on (lines 594-595). -/
def replaceFn (finput : Str) (allowed : List Str) (codes : Codes)
    (all_or_nothing handle_overlapping_codes escape_content_output : Bool)
    (code_start_symbol code_end_symbol : Str) : Except PyErr Str :=
  if containsSub finput code_start_symbol && containsSub finput code_end_symbol then
    match buildQueue allowed codes code_start_symbol code_end_symbol finput with
    | Except.error e => Except.error e
    | Except.ok queue =>
      match validatePass codes all_or_nothing handle_overlapping_codes queue with
      | Except.error e => Except.error e
      | Except.ok none => Except.ok finput
      | Except.ok (some queue1) =>
        renderPass codes all_or_nothing handle_overlapping_codes escape_content_output
          finput queue1
  else
    if escape_content_output then
      match codes globalName with
      | none => Except.error PyErr.keyErr
      | some g => Except.ok (g.escape finput)
    else Except.ok finput

/-- The configured parser state (constructor lines 213-347); settings are
already applied inside the handlers. -/
structure BBCodeParser where
  bb_code_count : Nat
  allowed_codes : List Str
  bb_codes : Codes
  all_or_nothing : Bool
  handle_overlapping_codes : Bool
  escape_content_output : Bool
  code_start_symbol : Str
  code_end_symbol : Str

/-- Lines 343-347 of the constructor: allowed_codes is a copy of the option
when a list was passed, else the list of all registry keys. -/
def constructedAllowedCodes (optAllowed : Option (List Str)) (registryKeys : List Str) :
    List Str :=
  match optAllowed with
  | some l => l
  | none => registryKeys

/-- format (lines 349-373): per-call options may override the three flags;
parsing is skipped entirely (the input is returned verbatim) unless the
registry and the allowed-codes list are both non-empty. -/
def BBCodeParser.format (p : BBCodeParser) (finput : Str)
    (aonOpt overlapOpt escOpt : Option Bool) : Except PyErr Str :=
  let aon := aonOpt.getD p.all_or_nothing
  let ovl := overlapOpt.getD p.handle_overlapping_codes
  let esc := escOpt.getD p.escape_content_output
  if 0 < p.bb_code_count ∧ 0 < p.allowed_codes.length then
    replaceFn finput p.allowed_codes p.bb_codes aon ovl esc p.code_start_symbol
      p.code_end_symbol
  else Except.ok finput

/-!
Concrete handler models, taken from the handler classes of the source file.
-/

/-- cgi.escape(content, True): ampersand, angle brackets and double quote
become entities. -/
def escChar (c : Char) : Str :=
  if c = '&' then "&amp;".toList
  else if c = '<' then "&lt;".toList
  else if c = '>' then "&gt;".toList
  else if c = '"' then "&quot;".toList
  else [c]

/-- HTML escaping as used by the handler escape methods. -/
def htmlEscape (s : Str) : Str :=
  (s.map escChar).flatten

/-- DefaultGlobalBBCode (lines 723-762); note that the inverted guard at
line 337 installs this handler as GLOBAL even in a default-configured
parser, replacing HTMLGlobalBBCode. -/
def defaultGlobalCode : BBCode :=
  { needs_end := false
    can_have_code_content := true
    can_have_argument := false
    must_have_argument := false
    get_auto_close_code_on_open := none
    get_auto_close_code_on_close := none
    is_valid_argument := fun _ => false
    is_valid_parent := fun _ => false
    escape := fun content => content
    open_fn := fun _ _ => []
    close_fn := fun _ _ => [] }

/-- HTMLBoldBBCode (lines 812-852). -/
def htmlBoldCode : BBCode :=
  { needs_end := true
    can_have_code_content := true
    can_have_argument := false
    must_have_argument := false
    get_auto_close_code_on_open := none
    get_auto_close_code_on_close := none
    is_valid_argument := fun _ => false
    is_valid_parent := fun _ => true
    escape := htmlEscape
    open_fn := fun _ _ => "<b>".toList
    close_fn := fun _ _ => "</b>".toList }

/-- HTMLListItemBBCode (lines 1690-1730): only valid inside ul or ol. -/
def htmlListItemCode : BBCode :=
  { needs_end := true
    can_have_code_content := true
    can_have_argument := false
    must_have_argument := false
    get_auto_close_code_on_open := none
    get_auto_close_code_on_close := none
    is_valid_argument := fun _ => false
    is_valid_parent := fun parent =>
      parent = some "ul".toList || parent = some "ol".toList
    escape := htmlEscape
    open_fn := fun _ _ => "<li>".toList
    close_fn := fun _ _ => "</li>".toList }

/-- HTMLStarBBCode (lines 1828-1868): auto-closes a previous star on open. -/
def htmlStarCode : BBCode :=
  { needs_end := true
    can_have_code_content := true
    can_have_argument := false
    must_have_argument := false
    get_auto_close_code_on_open := some ['*']
    get_auto_close_code_on_close := none
    is_valid_argument := fun _ => false
    is_valid_parent := fun _ => true
    escape := htmlEscape
    open_fn := fun _ _ => "<li>".toList
    close_fn := fun _ _ => "</li>".toList }

/-- A registry holding the GLOBAL handler and the bold handler. -/
def codesBG : Codes := fun n =>
  if n = "b".toList then some htmlBoldCode
  else if n = globalName then some defaultGlobalCode
  else none

/-- A registry holding the GLOBAL handler and the list-item handler. -/
def codesLi : Codes := fun n =>
  if n = "li".toList then some htmlListItemCode
  else if n = globalName then some defaultGlobalCode
  else none

/-- A registry holding the GLOBAL handler and the star handler. -/
def codesStar : Codes := fun n =>
  if n = ['*'] then some htmlStarCode
  else if n = globalName then some defaultGlobalCode
  else none

/-- A parser configured with the bold registry (default flags of the
constructor: all_or_nothing on, overlap handling off, content escaping on,
square-bracket delimiters). -/
def testParser : BBCodeParser :=
  { bb_code_count := 2
    allowed_codes := [globalName, "b".toList]
    bb_codes := codesBG
    all_or_nothing := true
    handle_overlapping_codes := false
    escape_content_output := true
    code_start_symbol := "[".toList
    code_end_symbol := "]".toList }

/-!
Concrete fixtures used by the claim theorems, witnesses and counterexamples.
-/

/-- The queue the builder would produce for input [li]x[/li] once the pairing
pass has matched the pair (list item opened at top level, closed at index 2). -/
def liQueue : List Token :=
  [ { ttype := TType.CODE_START, content := "li".toList, argument := none,
      status := Status.VALID, matched_index := some 2 },
    { ttype := TType.CONTENT, content := "x".toList, argument := none,
      status := Status.VALID, matched_index := none },
    { ttype := TType.CODE_END, content := "/li".toList, argument := none,
      status := Status.VALID, matched_index := some 0 } ]

/-- A start token whose name has no handler. -/
def bogusOpenTok : Token :=
  { ttype := TType.CODE_START, content := "bogus".toList, argument := none,
    status := Status.NOIMPLFOUND, matched_index := none }

/-- A close token left INVALID by validation. -/
def invalidCloseTok : Token :=
  { ttype := TType.CODE_END, content := "/b".toList, argument := none,
    status := Status.INVALID, matched_index := none }

/-- A root handler whose escape tags its input with G, to observe which
handler escaped a content token. -/
def cxG : BBCode := { defaultGlobalCode with escape := fun s => 'G' :: s }

/-- A bold-style handler whose escape tags its input with B. -/
def cxB : BBCode := { htmlBoldCode with escape := fun s => 'B' :: s }

/-- Registry with the two observation handlers. -/
def cxCodes : Codes := fun n =>
  if n = "b".toList then some cxB else if n = globalName then some cxG else none

/-- The validated queue of [b]x[/b]y: a matched bold pair followed by the
un-nested content y. -/
def cxQueue : List Token :=
  [ { ttype := TType.CODE_START, content := "b".toList, argument := none,
      status := Status.VALID, matched_index := some 2 },
    { ttype := TType.CONTENT, content := "x".toList, argument := none,
      status := Status.VALID, matched_index := none },
    { ttype := TType.CODE_END, content := "/b".toList, argument := none,
      status := Status.VALID, matched_index := some 0 },
    { ttype := TType.CONTENT, content := "y".toList, argument := none,
      status := Status.VALID, matched_index := none } ]

/-- The content token x of cxQueue. -/
def cxXTok : Token :=
  { ttype := TType.CONTENT, content := "x".toList, argument := none,
    status := Status.VALID, matched_index := none }

/-- The content token y of cxQueue. -/
def cxYTok : Token :=
  { ttype := TType.CONTENT, content := "y".toList, argument := none,
    status := Status.VALID, matched_index := none }

/-- An unvalidated queue for [b]x[/b] as the builder would produce it. -/
def c8q0 : List Token :=
  [Token.make TType.CODE_START "b".toList none,
   Token.make TType.CONTENT "x".toList none,
   Token.make TType.CODE_END "/b".toList none]

/-- The queue c8q0 after the pairing pass. -/
def c8q1 : List Token :=
  [ { ttype := TType.CODE_START, content := "b".toList, argument := none,
      status := Status.VALID, matched_index := some 2 },
    { ttype := TType.CONTENT, content := "x".toList, argument := none,
      status := Status.VALID, matched_index := none },
    { ttype := TType.CODE_END, content := "/b".toList, argument := none,
      status := Status.VALID, matched_index := some 0 } ]

/-- An unvalidated two-token queue: a bold open followed by its close. -/
def c3q : List Token :=
  [Token.make TType.CODE_START "b".toList none,
   Token.make TType.CODE_END "/b".toList none]

/-- A parser identical to testParser but constructed with an empty
allowed_codes list. -/
def emptyAllowedParser : BBCodeParser :=
  { testParser with allowed_codes := [] }

/-!
Spec-side definition for claim C5, used only to compare the claim's words
with the code.
-/

/-- Modelled from the spec words of claim C5: a VALID start code that
encloses position i, i.e. whose match index is still ahead of i. -/
def enclosingValidOpenP (i : Nat) : Token → Bool := fun u =>
  decide (u.ttype = TType.CODE_START) && decide (u.status = Status.VALID) &&
    (match u.matched_index with
     | some m => decide (i < m)
     | none => false)

/-- Modelled from the spec words of claim C5: the nearest preceding VALID
open token that encloses position i. -/
def nearestEnclosingValidOpen (q : List Token) (i : Nat) : Option Nat :=
  findBack (enclosingValidOpenP i) q i

/-- Modelled from the spec words of claim C5: the chunk the renderer should
append for a content token — the token text when escaping is off, otherwise
the escape of the handler of the nearest **enclosing** VALID open token, or
of the root handler g when there is none. -/
def claimC5ContentChunk (codes : Codes) (esc : Bool) (q : List Token) (i : Nat)
    (t : Token) (g : BBCode) : Str :=
  if esc = false then t.content
  else
    match nearestEnclosingValidOpen q i with
    | none => g.escape t.content
    | some p =>
      match q.get? p with
      | some tp =>
        match codes tp.content with
        | some h => h.escape t.content
        | none => g.escape t.content
      | none => g.escape t.content

/-!
Helper lemmas about list indexing and the backward scans.
-/

theorem get_some_lt {α : Type} {l : List α} {n : Nat} {a : α}
    (h : l.get? n = some a) : n < l.length := by
  by_contra hn
  rw [List.get?_eq_none.mpr (Nat.le_of_not_lt hn)] at h
  exact Option.noConfusion h

theorem get_set_same {α : Type} :
    ∀ (l : List α) (n : Nat) (a : α), n < l.length → (l.set n a).get? n = some a
  | [], n, _, h => absurd h (by simp)
  | _ :: _, 0, _, _ => rfl
  | _ :: xs, n + 1, a, h => get_set_same xs n a (Nat.lt_of_succ_lt_succ h)

theorem get_set_other {α : Type} :
    ∀ (l : List α) (m n : Nat) (a : α), m ≠ n → (l.set m a).get? n = l.get? n
  | [], _, _, _, _ => rfl
  | _ :: _, 0, 0, _, h => absurd rfl h
  | _ :: _, 0, _ + 1, _, _ => rfl
  | _ :: _, _ + 1, 0, _, _ => rfl
  | _ :: xs, m + 1, n + 1, a, h =>
    get_set_other xs m n a (fun hmn => h (congrArg Nat.succ hmn))

theorem findBack_lt (P : Token → Bool) (q : List Token) :
    ∀ pos s, findBack P q pos = some s → s < pos := by
  intro pos
  induction pos with
  | zero => intro s h; exact Option.noConfusion h
  | succ i ih =>
    intro s h
    unfold findBack at h
    cases hq : q.get? i with
    | none =>
      simp only [hq] at h
      exact Nat.lt_succ_of_lt (ih s h)
    | some u =>
      simp only [hq] at h
      by_cases hp : P u = true
      · rw [if_pos hp] at h
        injection h with h
        omega
      · rw [if_neg hp] at h
        exact Nat.lt_succ_of_lt (ih s h)

theorem findBack_found (P : Token → Bool) (q : List Token) :
    ∀ pos s, findBack P q pos = some s → ∃ u, q.get? s = some u ∧ P u = true := by
  intro pos
  induction pos with
  | zero => intro s h; exact Option.noConfusion h
  | succ i ih =>
    intro s h
    unfold findBack at h
    cases hq : q.get? i with
    | none => rw [hq] at h; exact ih s h
    | some u =>
      simp only [hq] at h
      by_cases hp : P u = true
      · rw [if_pos hp] at h
        injection h with h
        exact ⟨u, h ▸ hq, hp⟩
      · rw [if_neg hp] at h
        exact ih s h

theorem findBack_nearest (P : Token → Bool) (q : List Token) :
    ∀ pos s, findBack P q pos = some s →
      ∀ j u, s < j → j < pos → q.get? j = some u → P u = false := by
  intro pos
  induction pos with
  | zero => intro s h; exact Option.noConfusion h
  | succ i ih =>
    intro s h j u hsj hji hju
    unfold findBack at h
    cases hq : q.get? i with
    | none =>
      simp only [hq] at h
      rcases Nat.lt_succ_iff_lt_or_eq.mp hji with hji' | rfl
      · exact ih s h j u hsj hji' hju
      · rw [hq] at hju; exact Option.noConfusion hju
    | some u0 =>
      simp only [hq] at h
      by_cases hp : P u0 = true
      · rw [if_pos hp] at h
        injection h with h
        omega
      · rw [if_neg hp] at h
        rcases Nat.lt_succ_iff_lt_or_eq.mp hji with hji' | rfl
        · exact ih s h j u hsj hji' hju
        · rw [hq] at hju
          injection hju with hju
          rw [← hju]
          simpa using hp

theorem findBack_none (P : Token → Bool) (q : List Token) :
    ∀ pos, findBack P q pos = none →
      ∀ j u, j < pos → q.get? j = some u → P u = false := by
  intro pos
  induction pos with
  | zero => intro _ j u hj; omega
  | succ i ih =>
    intro h j u hji hju
    unfold findBack at h
    cases hq : q.get? i with
    | none =>
      simp only [hq] at h
      rcases Nat.lt_succ_iff_lt_or_eq.mp hji with hji' | rfl
      · exact ih h j u hji' hju
      · rw [hq] at hju; exact Option.noConfusion hju
    | some u0 =>
      simp only [hq] at h
      by_cases hp : P u0 = true
      · rw [if_pos hp] at h; exact Option.noConfusion h
      · rw [if_neg hp] at h
        rcases Nat.lt_succ_iff_lt_or_eq.mp hji with hji' | rfl
        · exact ih h j u hji' hju
        · rw [hq] at hju
          injection hju with hju
          rw [← hju]
          simpa using hp

/-- scanFor is the generic backward scan at its predicate. -/
theorem scanFor_eq_findBack (ovl : Bool) (q : List Token) (name : Str) (i : Nat) :
    scanFor ovl q name i = findBack (scanPred ovl name) q i := by
  cases ovl <;> rfl

/-- Whatever the mode, the scanned-for token is an UNDETERMINED start code. -/
theorem scanPred_start_undet {ovl : Bool} {name : Str} {u : Token}
    (h : scanPred ovl name u = true) :
    u.ttype = TType.CODE_START ∧ u.status = Status.UNDETERMINED := by
  cases ovl
  · simp only [scanPred, startWithStatusP, if_neg] at h
    exact of_decide_eq_true h
  · simp only [scanPred, startOfTypeP, if_pos] at h
    have h' := of_decide_eq_true h
    exact ⟨h'.1, h'.2.1⟩

/-!
The pair invariant maintained by the pairing pass (claim C8).
-/

/-- Both tokens of a matched pair are VALID with reciprocal match indices,
one a start code and the other an end code. -/
def PairGood (q : List Token) (a b : Nat) : Prop :=
  ∃ ta tb, q.get? a = some ta ∧ q.get? b = some tb ∧
    ta.status = Status.VALID ∧ tb.status = Status.VALID ∧
    ta.matched_index = some b ∧ tb.matched_index = some a ∧
    ((ta.ttype = TType.CODE_START ∧ tb.ttype = TType.CODE_END) ∨
     (ta.ttype = TType.CODE_END ∧ tb.ttype = TType.CODE_START))

/-- Every token with a match index set belongs to a good pair. -/
def PairInv (q : List Token) : Prop :=
  ∀ a b ta, q.get? a = some ta → ta.matched_index = some b → PairGood q a b

/-- All tokens at or beyond index i are still unmatched. -/
def UnmatchedFrom (q : List Token) (i : Nat) : Prop :=
  ∀ j t, i ≤ j → q.get? j = some t → t.matched_index = none

/-- Nothing points at an unmatched token (by reciprocity of good pairs). -/
theorem no_pointer_at {q : List Token} {i : Nat} {t : Token}
    (inv : PairInv q) (hqi : q.get? i = some t) (hm : t.matched_index = none) :
    ∀ a ta, q.get? a = some ta → ta.matched_index ≠ some i := by
  intro a ta hga hma
  obtain ⟨_, tb0, _, hgb0, _, _, _, hmb0, _⟩ := inv a i ta hga hma
  rw [hqi] at hgb0
  injection hgb0 with hgb0
  rw [hgb0, hmb0] at hm
  exact Option.noConfusion hm

/-- PairGood only inspects the two positions of the pair. -/
theorem pairGood_congr {q q' : List Token} {a b : Nat}
    (h : PairGood q a b) (ha : q'.get? a = q.get? a) (hb : q'.get? b = q.get? b) :
    PairGood q' a b := by
  obtain ⟨ta, tb, h1, h2, h3, h4, h5, h6, h7⟩ := h
  exact ⟨ta, tb, ha.trans h1, hb.trans h2, h3, h4, h5, h6, h7⟩

/-- Replacing an unmatched token with another unmatched token preserves the
pair invariant and the unmatched region shrinks by one. -/
theorem step_set_unmatched {q : List Token} {i : Nat} {t t' : Token}
    (inv : PairInv q) (hun : UnmatchedFrom q i)
    (hqi : q.get? i = some t) (hm' : t'.matched_index = none) :
    PairInv (q.set i t') ∧ UnmatchedFrom (q.set i t') (i + 1) := by
  have hm : t.matched_index = none := hun i t (Nat.le_refl i) hqi
  constructor
  · intro a b ta hga hma
    by_cases hai : a = i
    · subst hai
      rw [get_set_same q a t' (get_some_lt hqi)] at hga
      injection hga with hga
      rw [← hga, hm'] at hma
      exact Option.noConfusion hma
    · rw [get_set_other q i a t' (fun he => hai he.symm)] at hga
      have pg := inv a b ta hga hma
      have hbi : b ≠ i := by
        intro hbi
        subst hbi
        exact no_pointer_at inv hqi hm a ta hga hma
      exact pairGood_congr pg (get_set_other q i a t' (fun he => hai he.symm))
        (get_set_other q i b t' (fun he => hbi he.symm))
  · intro j tj hij hgj
    rw [get_set_other q i j t' (by omega)] at hgj
    exact hun j tj (by omega) hgj

/-- Pairing an end code at i with an UNDETERMINED start code at s preserves
the pair invariant. -/
theorem step_set_pairing {q : List Token} {i s : Nat} {t ts : Token}
    (inv : PairInv q) (hun : UnmatchedFrom q i)
    (hqi : q.get? i = some t) (hqs : q.get? s = some ts) (hsi : s < i)
    (htT : t.ttype = TType.CODE_END) (hsT : ts.ttype = TType.CODE_START)
    (hsU : ts.status = Status.UNDETERMINED) :
    PairInv ((q.set i { t with status := Status.VALID, matched_index := some s }).set s
        { ts with status := Status.VALID, matched_index := some i }) ∧
    UnmatchedFrom ((q.set i { t with status := Status.VALID, matched_index := some s }).set s
        { ts with status := Status.VALID, matched_index := some i }) (i + 1) := by
  have hm : t.matched_index = none := hun i t (Nat.le_refl i) hqi
  have hmts : ts.matched_index = none := by
    cases hmts : ts.matched_index with
    | none => rfl
    | some b =>
      obtain ⟨ta0, _, hga0, _, hsa0, _, _, _, _⟩ := inv s b ts hqs hmts
      rw [hqs] at hga0
      injection hga0 with hga0
      rw [← hga0, hsU] at hsa0
      exact Status.noConfusion hsa0
  have hne : s ≠ i := Nat.ne_of_lt hsi
  have hgi : ((q.set i { t with status := Status.VALID, matched_index := some s }).set s
      { ts with status := Status.VALID, matched_index := some i }).get? i =
      some { t with status := Status.VALID, matched_index := some s } := by
    rw [get_set_other _ s i _ hne, get_set_same q i _ (get_some_lt hqi)]
  have hgs : ((q.set i { t with status := Status.VALID, matched_index := some s }).set s
      { ts with status := Status.VALID, matched_index := some i }).get? s =
      some { ts with status := Status.VALID, matched_index := some i } := by
    apply get_set_same
    rw [List.length_set]
    exact get_some_lt hqs
  have hgo : ∀ a, a ≠ i → a ≠ s →
      ((q.set i { t with status := Status.VALID, matched_index := some s }).set s
        { ts with status := Status.VALID, matched_index := some i }).get? a = q.get? a := by
    intro a hai has
    rw [get_set_other _ s a _ (fun he => has he.symm),
      get_set_other q i a _ (fun he => hai he.symm)]
  constructor
  · intro a b ta hga hma
    by_cases hai : a = i
    · subst hai
      rw [hgi] at hga
      injection hga with hga
      rw [← hga] at hma
      simp only [Option.some.injEq] at hma
      rw [← hma]
      exact ⟨_, _, hgi, hgs, rfl, rfl, rfl, rfl, Or.inr ⟨htT, hsT⟩⟩
    · by_cases has : a = s
      · subst has
        rw [hgs] at hga
        injection hga with hga
        rw [← hga] at hma
        simp only [Option.some.injEq] at hma
        rw [← hma]
        exact ⟨_, _, hgs, hgi, rfl, rfl, rfl, rfl, Or.inl ⟨hsT, htT⟩⟩
      · rw [hgo a hai has] at hga
        have pg := inv a b ta hga hma
        have hbi : b ≠ i := by
          intro hbi
          subst hbi
          exact no_pointer_at inv hqi hm a ta hga hma
        have hbs : b ≠ s := by
          intro hbs
          subst hbs
          exact no_pointer_at inv hqs hmts a ta hga hma
        exact pairGood_congr pg (hgo a hai has) (hgo b hbi hbs)
  · intro j tj hij hgj
    rw [hgo j (by omega) (by omega)] at hgj
    exact hun j tj (by omega) hgj

/-- One pairing-pass step preserves the invariant. -/
theorem validateStep_preserves (codes : Codes) (ovl : Bool) (q : List Token) (i : Nat)
    (q1 : List Token) (h : validateStep codes ovl q i = Except.ok q1)
    (inv : PairInv q) (hun : UnmatchedFrom q i) :
    PairInv q1 ∧ UnmatchedFrom q1 (i + 1) := by
  unfold validateStep at h
  cases hqi : q.get? i with
  | none =>
    simp only [hqi] at h
    injection h with h
    subst h
    exact ⟨inv, fun j tj hij hgj => hun j tj (by omega) hgj⟩
  | some t =>
    simp only [hqi] at h
    by_cases hskip : t.status = Status.NOIMPLFOUND ∨ t.status = Status.NOTALLOWED
    · rw [if_pos hskip] at h
      injection h with h
      subst h
      exact ⟨inv, fun j tj hij hgj => hun j tj (by omega) hgj⟩
    · rw [if_neg hskip] at h
      cases htT : t.ttype with
      | CONTENT =>
        simp only [htT] at h
        injection h with h
        subst h
        exact ⟨inv, fun j tj hij hgj => hun j tj (by omega) hgj⟩
      | CODE_START =>
        simp only [htT] at h
        cases hc : codes t.content with
        | none => simp only [hc] at h; simp at h
        | some hb =>
          simp only [hc] at h
          by_cases hne2 : hb.needs_end = false
          · rw [if_pos hne2] at h
            injection h with h
            subst h
            exact step_set_unmatched inv hun hqi (hun i t (Nat.le_refl i) hqi)
          · rw [if_neg hne2] at h
            injection h with h
            subst h
            exact ⟨inv, fun j tj hij hgj => hun j tj (by omega) hgj⟩
      | CODE_END =>
        simp only [htT] at h
        cases hc : codes (t.content.drop 1) with
        | none => simp only [hc] at h; simp at h
        | some hb =>
          simp only [hc] at h
          by_cases hne2 : hb.needs_end = false
          · rw [if_pos hne2] at h
            injection h with h
            subst h
            exact step_set_unmatched inv hun hqi (hun i t (Nat.le_refl i) hqi)
          · rw [if_neg hne2] at h
            cases hscan : scanFor ovl q (t.content.drop 1) i with
            | none =>
              simp only [hscan] at h
              injection h with h
              subst h
              exact step_set_unmatched inv hun hqi (hun i t (Nat.le_refl i) hqi)
            | some s =>
              simp only [hscan] at h
              cases hqs : q.get? s with
              | none => simp only [hqs] at h; simp at h
              | some ts =>
                simp only [hqs] at h
                by_cases hcnt : ts.content = t.content.drop 1
                · rw [if_pos hcnt] at h
                  injection h with h
                  subst h
                  have hsi : s < i := findBack_lt _ q i s
                    (by rw [← scanFor_eq_findBack]; exact hscan)
                  obtain ⟨u, hu, hPu⟩ := findBack_found _ q i s
                    (by rw [← scanFor_eq_findBack]; exact hscan)
                  rw [hqs] at hu
                  injection hu with hu
                  have hud := scanPred_start_undet hPu
                  rw [← hu] at hud
                  rw [← htT]
                  exact step_set_pairing inv hun hqi hqs hsi htT hud.1 hud.2
                · rw [if_neg hcnt] at h
                  injection h with h
                  subst h
                  exact step_set_unmatched inv hun hqi (hun i t (Nat.le_refl i) hqi)

/-- The pairing-pass loop preserves the invariant until completion. -/
theorem validateFrom_inv (codes : Codes) (aon ovl : Bool) :
    ∀ r i q q1, PairInv q → UnmatchedFrom q i →
      validateFrom codes aon ovl r i q = Except.ok (some q1) → PairInv q1 := by
  intro r
  induction r with
  | zero =>
    intro i q q1 inv _ h
    simp only [validateFrom] at h
    injection h with h
    injection h with h
    subst h
    exact inv
  | succ n ih =>
    intro i q q1 inv hun h
    simp only [validateFrom] at h
    cases hstep : validateStep codes ovl q i with
    | error e => simp only [hstep] at h; simp at h
    | ok q2 =>
      simp only [hstep] at h
      obtain ⟨inv2, hun2⟩ := validateStep_preserves codes ovl q i q2 hstep inv hun
      cases hq2 : q2.get? i with
      | none => simp only [hq2] at h; exact ih (i + 1) q2 q1 inv2 hun2 h
      | some t2 =>
        simp only [hq2] at h
        by_cases habort : aon ∧ t2.status = Status.INVALID
        · rw [if_pos habort] at h; simp at h
        · rw [if_neg habort] at h; exact ih (i + 1) q2 q1 inv2 hun2 h

/-!
The claim theorems.
-/

/-- Claim C1 (code_bug): the spec says format is total and never raises for
malformed input, but the code raises for every input containing both
delimiters: tokenizer.is_exhausted() at line 399 raises TypeError (the
method lacks self), and line 400 is not even valid Python.  Here format on
the well-formed input [b]x[/b] raises TypeError. -/
theorem c1_format_raises :
    BBCodeParser.format testParser "[b]x[/b]".toList none none none =
      Except.error PyErr.typeErr := rfl

/-- Claim C2 (code_bug): under all-or-nothing, an Invalid classification in
the invalid-parent check is supposed to return the original input, but line
549 reads the undefined name allOrNothing, so the render pass over the
validated queue of [li]x[/li] raises NameError instead of returning the
input. -/
theorem c2_abort_raises_nameerror :
    renderPass codesLi true false true "[li]x[/li]".toList liQueue =
      Except.error PyErr.nameErr := rfl

/-- Claim C3: during the pairing pass, a close token needing an end scans
backward for the nearest still-UNDETERMINED open token (of the same name in
overlap mode, of any name otherwise); no find or a name mismatch makes it
INVALID, and a find of the same name makes both tokens VALID with reciprocal
match indices. -/
theorem c3_close_pairing (codes : Codes) (ovl : Bool) (q : List Token) (i : Nat)
    (t : Token) (hand : BBCode)
    (ht : q.get? i = some t) (hty : t.ttype = TType.CODE_END)
    (hs1 : t.status ≠ Status.NOIMPLFOUND) (hs2 : t.status ≠ Status.NOTALLOWED)
    (hh : codes (t.content.drop 1) = some hand) (hne : hand.needs_end = true) :
    (∀ s, scanFor ovl q (t.content.drop 1) i = some s →
      s < i ∧ (∃ u, q.get? s = some u ∧ scanPred ovl (t.content.drop 1) u = true) ∧
        ∀ j u, s < j → j < i → q.get? j = some u →
          scanPred ovl (t.content.drop 1) u = false)
  ∧ (scanFor ovl q (t.content.drop 1) i = none →
      (∀ j u, j < i → q.get? j = some u → scanPred ovl (t.content.drop 1) u = false) ∧
        validateStep codes ovl q i =
          Except.ok (q.set i { t with status := Status.INVALID }))
  ∧ (∀ s u, scanFor ovl q (t.content.drop 1) i = some s → q.get? s = some u →
      (u.content ≠ t.content.drop 1 →
        validateStep codes ovl q i =
          Except.ok (q.set i { t with status := Status.INVALID }))
    ∧ (u.content = t.content.drop 1 →
        validateStep codes ovl q i = Except.ok
          ((q.set i { t with status := Status.VALID, matched_index := some s }).set s
            { u with status := Status.VALID, matched_index := some i }))) := by
  refine ⟨?_, ?_, ?_⟩
  · intro s hscan
    rw [scanFor_eq_findBack] at hscan
    exact ⟨findBack_lt _ q i s hscan, findBack_found _ q i s hscan,
      fun j u hsj hji hju => findBack_nearest _ q i s hscan j u hsj hji hju⟩
  · intro hscan
    constructor
    · intro j u hji hju
      rw [scanFor_eq_findBack] at hscan
      exact findBack_none _ q i hscan j u hji hju
    · unfold validateStep
      simp only [ht]
      rw [if_neg (not_or.mpr ⟨hs1, hs2⟩)]
      simp only [hty, hh]
      rw [if_neg (by simp [hne])]
      simp only [hscan]
  · intro s u hscan hgs
    constructor
    · intro hcnt
      unfold validateStep
      simp only [ht]
      rw [if_neg (not_or.mpr ⟨hs1, hs2⟩)]
      simp only [hty, hh]
      rw [if_neg (by simp [hne])]
      simp only [hscan, hgs]
      rw [if_neg hcnt]
    · intro hcnt
      unfold validateStep
      simp only [ht]
      rw [if_neg (not_or.mpr ⟨hs1, hs2⟩)]
      simp only [hty, hh]
      rw [if_neg (by simp [hne])]
      simp only [hscan, hgs]
      rw [if_pos hcnt]

/-- Witness for C3: the close of [b]...[/b] pairs with its open. -/
theorem c3_close_pairing_witness :
    validateStep codesBG false c3q 1 = Except.ok
      ((c3q.set 1 { Token.make TType.CODE_END "/b".toList none with
          status := Status.VALID, matched_index := some 0 }).set 0
        { Token.make TType.CODE_START "b".toList none with
          status := Status.VALID, matched_index := some 1 }) := by
  have h := (c3_close_pairing codesBG false c3q 1
    (Token.make TType.CODE_END "/b".toList none) htmlBoldCode rfl rfl
    (by decide) (by decide) rfl rfl).2.2 0
    (Token.make TType.CODE_START "b".toList none) rfl rfl
  exact h.2 rfl

/-- Claim C4 (code_bug): a rejected start or close code should degrade to
its delimiter-wrapped literal form, but the output statements at lines
559/561/593 are attribute chains on a str and raise AttributeError: here for
a NOIMPLFOUND open token and for an INVALID close token. -/
theorem c4_literal_form_raises :
    renderToken codesBG false false true [bogusOpenTok] 0 bogusOpenTok [] =
        Except.error PyErr.attrErr ∧
      renderToken codesBG false false true [invalidCloseTok] 0 invalidCloseTok [] =
        Except.error PyErr.attrErr :=
  ⟨rfl, rfl⟩

/-- Counterexample to claim C5 as stated: for the content y after the closed
pair in [b]x[/b]y the code escapes with the bold handler (the nearest
preceding VALID open token, which does not enclose y), while the claim's
enclosing-parent rule prescribes the root handler.  The chunks differ. -/
theorem c5_counterexample :
    renderToken cxCodes false false true cxQueue 3 cxYTok [] =
        Except.ok (StepOut.emit ('B' :: 'y' :: []) cxQueue []) ∧
      claimC5ContentChunk cxCodes true cxQueue 3 cxYTok cxG = ('G' :: 'y' :: []) ∧
      ('B' :: 'y' :: ([] : Str)) ≠ ('G' :: 'y' :: []) :=
  ⟨rfl, rfl, by decide⟩

/-- Claim C5, amended: a content token is appended literally when escaping
is off; otherwise it is escaped by the handler of the nearest preceding
VALID open token whether or not that token encloses it (falling back to the
root handler when there is none or its name is unregistered). -/
theorem c5_content_escape_amended (codes : Codes) (g : BBCode)
    (aon ovl esc : Bool) (q : List Token) (i : Nat) (t : Token) (stack : List Token)
    (hty : t.ttype = TType.CONTENT) (hg : codes globalName = some g) :
    (esc = false →
      renderToken codes aon ovl esc q i t stack =
        Except.ok (StepOut.emit t.content q stack))
  ∧ (esc = true → find_start_code_with_status q Status.VALID i = none →
      renderToken codes aon ovl esc q i t stack =
        Except.ok (StepOut.emit (g.escape t.content) q stack))
  ∧ (esc = true → ∀ p tp, find_start_code_with_status q Status.VALID i = some p →
      q.get? p = some tp →
      renderToken codes aon ovl esc q i t stack =
        Except.ok (StepOut.emit
          (match codes tp.content with
           | some hp => hp.escape t.content
           | none => g.escape t.content) q stack))
  ∧ (∀ p, find_start_code_with_status q Status.VALID i = some p →
      p < i ∧ (∃ u, q.get? p = some u ∧ u.ttype = TType.CODE_START ∧
          u.status = Status.VALID) ∧
        ∀ j u, p < j → j < i → q.get? j = some u →
          ¬(u.ttype = TType.CODE_START ∧ u.status = Status.VALID)) := by
  refine ⟨?_, ?_, ?_, ?_⟩
  · intro hesc
    unfold renderToken
    simp only [hty]
    rw [if_pos hesc]
  · intro hesc hfind
    unfold renderToken
    simp only [hty]
    rw [if_neg (by simp [hesc])]
    simp only [hfind, hg]
  · intro hesc p tp hfind hgp
    unfold renderToken
    simp only [hty]
    rw [if_neg (by simp [hesc])]
    simp only [hfind, pyIndex, hgp]
    cases hcp : codes tp.content with
    | none => simp only [hcp, hg]
    | some hp => simp only [hcp]
  · intro p hfind
    unfold find_start_code_with_status at hfind
    refine ⟨findBack_lt _ q i p hfind, ?_, ?_⟩
    · obtain ⟨u, hu, hPu⟩ := findBack_found _ q i p hfind
      have hPu' : u.ttype = TType.CODE_START ∧ u.status = Status.VALID := by
        simpa [startWithStatusP] using hPu
      exact ⟨u, hu, hPu'⟩
    · intro j u hpj hji hju hcontr
      have hfalse := findBack_nearest _ q i p hfind j u hpj hji hju
      rw [show startWithStatusP Status.VALID u = true from by
        simp [startWithStatusP, hcontr.1, hcontr.2]] at hfalse
      simp at hfalse

/-- Witness for the amended C5: the content x inside [b]x[/b]y is escaped by
the bold handler. -/
theorem c5_amended_witness :
    renderToken cxCodes false false true cxQueue 1 cxXTok [] =
      Except.ok (StepOut.emit ('B' :: 'x' :: []) cxQueue []) := by
  have h := (c5_content_escape_amended cxCodes cxG false false true cxQueue 1 cxXTok []
    rfl rfl).2.2.1 rfl 0
    { ttype := TType.CODE_START, content := "b".toList, argument := none,
      status := Status.VALID, matched_index := some 2 } rfl rfl
  exact h

/-- Claim C6: when the input lacks a start/end delimiter pair, format hands
it back unchanged (content escaping off) or as the root handler's escape of
the whole input (content escaping on). -/
theorem c6_no_pair_passthrough (p : BBCodeParser) (g : BBCode) (finput : Str)
    (hcnt : 0 < p.bb_code_count) (hall : 0 < p.allowed_codes.length)
    (hg : p.bb_codes globalName = some g)
    (hno : (containsSub finput p.code_start_symbol &&
        containsSub finput p.code_end_symbol) = false) :
    BBCodeParser.format p finput none none none =
      Except.ok (if p.escape_content_output then g.escape finput else finput) := by
  simp only [BBCodeParser.format, Option.getD_none]
  rw [if_pos ⟨hcnt, hall⟩]
  simp only [replaceFn]
  rw [if_neg (by rw [hno]; exact Bool.false_ne_true)]
  cases hesc : p.escape_content_output with
  | false => simp [hesc]
  | true => simp [hesc, hg]

/-- Witness for C6: escaping on, identity root escape, bracket-free input. -/
theorem c6_no_pair_passthrough_witness :
    BBCodeParser.format testParser "hello".toList none none none =
      Except.ok ("hello".toList) := by
  have h := c6_no_pair_passthrough testParser defaultGlobalCode "hello".toList
    (by decide) (by decide) rfl (by decide)
  exact h

/-- Claim C7 (code_bug): the auto-close mechanism at lines 426-437 matches
the claim, but the builder raises TypeError at line 399 on every non-empty
code before reaching it, so [*]A[*]B crashes instead of producing the
open/A/close/open/B stream. -/
theorem c7_autoclose_build_raises :
    buildQueue [['*'], globalName] codesStar "[".toList "]".toList
      "[*]A[*]B".toList = Except.error PyErr.typeErr := rfl

/-- Claim C8: starting from a queue with no match indices set (as the
builder produces), a completed pairing pass without an all-or-nothing abort
leaves every matched pair transactionally consistent: both tokens VALID with
reciprocal match indices, one open and one close. -/
theorem c8_pair_invariant (codes : Codes) (aon ovl : Bool) (q0 q1 : List Token)
    (h0 : ∀ j t, q0.get? j = some t → t.matched_index = none)
    (hrun : validatePass codes aon ovl q0 = Except.ok (some q1)) :
    ∀ a b ta, q1.get? a = some ta → ta.matched_index = some b → PairGood q1 a b := by
  have inv : PairInv q0 := by
    intro a b ta hga hma
    rw [h0 a ta hga] at hma
    exact Option.noConfusion hma
  have hun : UnmatchedFrom q0 0 := fun j t _ hgj => h0 j t hgj
  exact validateFrom_inv codes aon ovl q0.length 0 q0 q1 inv hun hrun

/-- Witness for C8 at the queue of [b]x[/b]. -/
theorem c8_pair_invariant_witness : PairGood c8q1 0 2 := by
  have hmem : ∀ t ∈ c8q0, t.matched_index = none := by decide
  exact c8_pair_invariant codesBG false false c8q0 c8q1
    (fun j t hj => hmem t (List.get?_mem hj)) (by rfl) 0 2
    { ttype := TType.CODE_START, content := "b".toList, argument := none,
      status := Status.VALID, matched_index := some 2 } rfl rfl

/-- Claim C9: in the pairing pass, an open token whose handler needs no end
is immediately VALID, and a close token whose handler needs no end is
reclassified as CONTENT and marked VALID. -/
theorem c9_self_contained (codes : Codes) (ovl : Bool) (q : List Token) (i : Nat)
    (t : Token) (ht : q.get? i = some t)
    (hs1 : t.status ≠ Status.NOIMPLFOUND) (hs2 : t.status ≠ Status.NOTALLOWED) :
    (∀ hand, t.ttype = TType.CODE_START → codes t.content = some hand →
      hand.needs_end = false →
      validateStep codes ovl q i = Except.ok (q.set i { t with status := Status.VALID }))
  ∧ (∀ hand, t.ttype = TType.CODE_END → codes (t.content.drop 1) = some hand →
      hand.needs_end = false →
      validateStep codes ovl q i = Except.ok
        (q.set i { t with ttype := TType.CONTENT, status := Status.VALID })) := by
  constructor
  · intro hand hty hc hne
    unfold validateStep
    simp only [ht]
    rw [if_neg (not_or.mpr ⟨hs1, hs2⟩)]
    simp only [hty, hc]
    rw [if_pos hne]
  · intro hand hty hc hne
    unfold validateStep
    simp only [ht]
    rw [if_neg (not_or.mpr ⟨hs1, hs2⟩)]
    simp only [hty, hc]
    rw [if_pos hne]

/-- Witness tokens for C9: an open and a close of the self-contained GLOBAL
handler. -/
def gOpenTok : Token := Token.make TType.CODE_START globalName none

/-- The matching stray close token for the C9 witness. -/
def gCloseTok : Token := Token.make TType.CODE_END ('/' :: globalName) none

/-- Witness for C9 on the self-contained GLOBAL handler. -/
theorem c9_self_contained_witness :
    validateStep codesBG false [gOpenTok] 0 =
        Except.ok [{ gOpenTok with status := Status.VALID }] ∧
      validateStep codesBG false [gCloseTok] 0 =
        Except.ok [{ gCloseTok with ttype := TType.CONTENT, status := Status.VALID }] := by
  constructor
  · exact (c9_self_contained codesBG false [gOpenTok] 0 gOpenTok rfl
      (by decide) (by decide)).1 defaultGlobalCode rfl rfl rfl
  · exact (c9_self_contained codesBG false [gCloseTok] 0 gCloseTok rfl
      (by decide) (by decide)).2 defaultGlobalCode rfl rfl rfl

/-- Claim C10: with an empty allowed_codes list (as the constructor copies
from an empty option) or an empty registry, format returns every input
verbatim, with no escaping. -/
theorem c10_empty_allowed (p : BBCodeParser) (ks : List Str) (finput : Str)
    (o1 o2 o3 : Option Bool)
    (h : p.allowed_codes = constructedAllowedCodes (some []) ks ∨ p.bb_code_count = 0) :
    BBCodeParser.format p finput o1 o2 o3 = Except.ok finput := by
  have hneg : ¬(0 < p.bb_code_count ∧ 0 < p.allowed_codes.length) := by
    rintro ⟨h1, h2⟩
    cases h with
    | inl hl => rw [hl] at h2; exact absurd h2 (by simp [constructedAllowedCodes])
    | inr hr => omega
  unfold BBCodeParser.format
  rw [if_neg hneg]

/-- Witness for C10: bracketed input comes back verbatim and unescaped. -/
theorem c10_empty_allowed_witness :
    BBCodeParser.format emptyAllowedParser "[b]x[/b]".toList none none none =
      Except.ok ("[b]x[/b]".toList) :=
  c10_empty_allowed emptyAllowedParser [] "[b]x[/b]".toList none none none (Or.inl rfl)
